import Mathlib

/-!
Shallow embedding of the two remote-resource service modules of the
StudyFlow repository: `src/services/api/activityService.js` and
`src/services/api/teacherService.js`.

Each service method is modelled as a pure function from the transport's
response (an `Except String _`, where `.error e` models the underlying
SDK call throwing an exception with message `e`) to an observable
outcome: the returned JavaScript value, the list of toast notifications
emitted, and — where a claim needs it — the request descriptor sent to
the transport. JavaScript `undefined` and `null` returns are modelled
as `Option.none`; a rethrown or newly thrown exception is modelled as
`CallResult.thrown`.
-/

namespace StudyFlow

/-- A JavaScript scalar value as it appears in these services: `undefined`,
`null`, `NaN`, a string, or an integer. -/
inductive JSVal where
  | jsUndefined
  | null
  | nan
  | str (s : String)
  | num (n : Int)
deriving DecidableEq, Repr

/-- JavaScript truthiness for the values of `JSVal` (`undefined`, `null`,
`NaN`, `""` and `0` are falsy). -/
def JSVal.truthy : JSVal → Bool
  | .str s => !s.isEmpty
  | .num n => n != 0
  | _ => false

/-- A JavaScript object literal: an association list from field name to value. -/
abbrev Obj : Type := List (String × JSVal)

/-- JavaScript property access `o.k`: `undefined` when the key is absent. -/
def getField (o : Obj) (k : String) : JSVal :=
  (List.lookup k o).getD .jsUndefined

/-- JavaScript `parseInt` restricted to the values of `JSVal`: an integer is
returned unchanged, a string is parsed as an optional sign followed by a
decimal-digit prefix, and everything else (and a digitless string) gives `NaN`. -/
def parseIntJS : JSVal → JSVal
  | .num n => .num n
  | .str s =>
    let cs := s.trim.toList
    let signed : Int × List Char :=
      match cs with
      | '-' :: r => (-1, r)
      | '+' :: r => (1, r)
      | r => (1, r)
    let ds := signed.2.takeWhile Char.isDigit
    if ds.isEmpty then .nan
    else .num (signed.1 * (ds.foldl (fun a c => a * 10 + (c.toNat - 48)) 0 : Nat))
  | _ => .nan

/-- One `react-toastify` toast notification. -/
inductive Toast where
  | error (msg : String)
  | success (msg : String)
deriving DecidableEq, Repr

/-- How a service call ends: a returned value, or an exception propagated
to the caller. -/
inductive CallResult (α : Type) where
  | ret (v : α)
  | thrown (msg : String)
deriving DecidableEq, Repr

/-- Observable outcome of one service call: the call result together with
the toast notifications emitted during the call, in order. -/
structure OpResult (α : Type) where
  result : CallResult α
  toasts : List Toast
deriving DecidableEq, Repr

/-! ### Request descriptors -/

/-- One entry of a `fields` projection list (`{ field: { Name: "..." } }`). -/
structure FieldSel where
  name : String
deriving DecidableEq, Repr

/-- One entry of an `orderBy` list. -/
structure OrderBy where
  fieldName : String
  sorttype : String
deriving DecidableEq, Repr

/-- The `pagingInfo` object. -/
structure PagingInfo where
  limit : Int
  offset : Int
deriving DecidableEq, Repr

/-- The params object passed to `apperClient.fetchRecords`. -/
structure FetchParams where
  fields : List FieldSel
  orderBy : List OrderBy
  pagingInfo : PagingInfo
deriving DecidableEq, Repr

/-! ### Transport responses -/

/-- Response envelope of `fetchRecords`. -/
structure FetchResponse where
  success : Bool
  message : String
  data : Option (List Obj)
deriving DecidableEq, Repr

/-- Response envelope of `getRecordById`. -/
structure GetByIdResponse where
  success : Bool
  message : String
  data : Option Obj
deriving DecidableEq, Repr

/-- One per-record result inside a `createRecord` / `updateRecord` /
`deleteRecord` response. `message = none` models an absent message field;
`errors = none` models an absent errors array. -/
structure RecordError where
  fieldLabel : String
  message : String
deriving DecidableEq, Repr

structure RecordResult where
  success : Bool
  data : Option Obj
  message : Option String
  errors : Option (List RecordError)
deriving DecidableEq, Repr

/-- Response envelope of `createRecord`, `updateRecord` and `deleteRecord`. -/
structure WriteResponse where
  success : Bool
  message : String
  results : Option (List RecordResult)
deriving DecidableEq, Repr

/-- JavaScript truthiness of `record.message` (absent or empty is falsy). -/
def msgTruthy : Option String → Bool
  | some s => !s.isEmpty
  | none => false

/-! ### activityService.getAll / teacherService.getAll -/

/-- The params object `ActivityService.getAll` passes to `fetchRecords`
(activityService.js lines 20-34). -/
def activityGetAllParams : FetchParams :=
  { fields := [⟨"Name"⟩, ⟨"Tags"⟩, ⟨"subject_c"⟩, ⟨"description_c"⟩,
               ⟨"status_c"⟩, ⟨"priority_c"⟩, ⟨"due_date_c"⟩,
               ⟨"CreatedOn"⟩, ⟨"ModifiedOn"⟩],
    orderBy := [⟨"ModifiedOn", "DESC"⟩],
    pagingInfo := ⟨100, 0⟩ }

/-- The params object `teacherService.getAll` passes to `fetchRecords`
(teacherService.js lines 10-19). -/
def teacherGetAllParams : FetchParams :=
  { fields := [⟨"Id"⟩, ⟨"name_c"⟩, ⟨"email_c"⟩, ⟨"department_c"⟩],
    orderBy := [⟨"name_c", "ASC"⟩],
    pagingInfo := ⟨100, 0⟩ }

/-- `ActivityService.getAll` (activityService.js lines 10-50): transport
failure envelope returns `[]` after one error toast with the transport
message; a thrown transport error is caught, toasts a generic message and
returns `[]`; success returns `response.data || []`. -/
def activityGetAll (resp : Except String FetchResponse) : OpResult (List Obj) :=
  match resp with
  | .error _ => ⟨.ret [], [.error "Failed to load activities"]⟩
  | .ok r =>
    if r.success then ⟨.ret (r.data.getD []), []⟩
    else ⟨.ret [], [.error r.message]⟩

/-- `teacherService.getAll` (teacherService.js lines 2-32): never inspects
`response.success`; returns `[]` when `response?.data?.length` is falsy and
the data otherwise; the catch block logs and rethrows. No toasts anywhere. -/
def teacherGetAll (resp : Except String FetchResponse) : OpResult (List Obj) :=
  match resp with
  | .error e => ⟨.thrown e, []⟩
  | .ok r =>
    match r.data with
    | none => ⟨.ret [], []⟩
    | some d => if d.isEmpty then ⟨.ret [], []⟩ else ⟨.ret d, []⟩

/-! ### getById -/

/-- The field projection `ActivityService.getById` sends
(activityService.js lines 62-72). -/
def activityGetByIdFields : List FieldSel :=
  [⟨"Name"⟩, ⟨"Tags"⟩, ⟨"subject_c"⟩, ⟨"description_c"⟩,
   ⟨"status_c"⟩, ⟨"priority_c"⟩, ⟨"due_date_c"⟩]

/-- The field projection `teacherService.getById` sends
(teacherService.js lines 42-49). -/
def teacherGetByIdFields : List FieldSel :=
  [⟨"Id"⟩, ⟨"name_c"⟩, ⟨"email_c"⟩, ⟨"department_c"⟩]

/-- A call to `apperClient.getRecordById`: table name, the identifier
exactly as handed to the SDK, and the field projection. -/
structure GetByIdCall where
  table : String
  id : JSVal
  fields : List FieldSel
deriving DecidableEq, Repr

/-- Outcome of a `getById` service call. `request = some c` records that the
transport was contacted with call `c`; `none` would mean the call was
rejected before reaching the transport (no such path exists in the code). -/
structure GetByIdOutcome where
  request : Option GetByIdCall
  result : CallResult (Option Obj)
  toasts : List Toast
deriving DecidableEq, Repr

/-- The `getRecordById` call built by `ActivityService.getById`: the
identifier is passed through unchanged, with no validation or coercion
(activityService.js line 74). -/
def activityGetByIdRequest (id : JSVal) : GetByIdCall :=
  ⟨"activity_c", id, activityGetByIdFields⟩

/-- The `getRecordById` call built by `teacherService.getById`
(teacherService.js line 51). -/
def teacherGetByIdRequest (id : JSVal) : GetByIdCall :=
  ⟨"teacher_c", id, teacherGetByIdFields⟩

/-- `ActivityService.getById` (activityService.js lines 52-88): failure
envelope toasts the transport message and returns `null`; a thrown error is
caught, toasts a generic message and returns `null`; success returns
`response.data` (which may be absent). -/
def activityGetById (id : JSVal) (resp : Except String GetByIdResponse) :
    GetByIdOutcome :=
  { request := some (activityGetByIdRequest id),
    result :=
      match resp with
      | .error _ => .ret none
      | .ok r => if r.success then .ret r.data else .ret none,
    toasts :=
      match resp with
      | .error _ => [.error "Failed to load activity"]
      | .ok r => if r.success then [] else [.error r.message] }

/-- `teacherService.getById` (teacherService.js lines 34-62): returns `null`
when `response?.data` is absent, the data otherwise; the catch block logs
and rethrows; no toasts. -/
def teacherGetById (id : JSVal) (resp : Except String GetByIdResponse) :
    GetByIdOutcome :=
  { request := some (teacherGetByIdRequest id),
    result :=
      match resp with
      | .error e => .thrown e
      | .ok r =>
        match r.data with
        | none => .ret none
        | some d => .ret (some d),
    toasts := [] }

/-! ### create / update / delete -/

/-- The write whitelist of the activity resource: the field names of the
`formattedData` literal in `ActivityService.create` (activityService.js
lines 101-109). -/
def activityWriteFields : List String :=
  ["Name", "subject_c", "description_c", "status_c", "priority_c",
   "due_date_c", "Tags"]

/-- The write whitelist of the teacher resource: the field names of the
`filteredData` literal in `teacherService.create` (teacherService.js
lines 73-77). -/
def teacherWriteFields : List String :=
  ["name_c", "email_c", "department_c"]

/-- The `formattedData` object `ActivityService.create` builds from its
payload (activityService.js lines 101-109); note `Tags` falls back to `""`
via `||`. -/
def activityFormattedData (p : Obj) : Obj :=
  [("Name", getField p "Name"),
   ("subject_c", getField p "subject_c"),
   ("description_c", getField p "description_c"),
   ("status_c", getField p "status_c"),
   ("priority_c", getField p "priority_c"),
   ("due_date_c", getField p "due_date_c"),
   ("Tags", if (getField p "Tags").truthy then getField p "Tags" else .str "")]

/-- The `formattedData` object `ActivityService.update` builds: `Id` is
`parseInt(id)`, then the same fields as create (activityService.js
lines 163-172). -/
def activityUpdateFormattedData (id : JSVal) (p : Obj) : Obj :=
  ("Id", parseIntJS id) :: activityFormattedData p

/-- The `filteredData` object `teacherService.create` builds
(teacherService.js lines 73-77). -/
def teacherFilteredData (p : Obj) : Obj :=
  [("name_c", getField p "name_c"),
   ("email_c", getField p "email_c"),
   ("department_c", getField p "department_c")]

/-- The `filteredData` object `teacherService.update` builds: the raw
`teacherId` (no `parseInt`) plus the create fields (teacherService.js
lines 118-123). -/
def teacherUpdateFilteredData (id : JSVal) (p : Obj) : Obj :=
  ("Id", id) :: teacherFilteredData p

/-- The params object of `createRecord` / `updateRecord`: a one-element
`records` batch. -/
structure WriteParams where
  records : List Obj
deriving DecidableEq, Repr

/-- The params object of `deleteRecord`: a `RecordIds` list. -/
structure DeleteParams where
  recordIds : List JSVal
deriving DecidableEq, Repr

def activityCreateParams (p : Obj) : WriteParams := ⟨[activityFormattedData p]⟩

def activityUpdateParams (id : JSVal) (p : Obj) : WriteParams :=
  ⟨[activityUpdateFormattedData id p]⟩

def teacherCreateParams (p : Obj) : WriteParams := ⟨[teacherFilteredData p]⟩

def teacherUpdateParams (id : JSVal) (p : Obj) : WriteParams :=
  ⟨[teacherUpdateFilteredData id p]⟩

/-- `ActivityService.delete` sends `RecordIds: [parseInt(id)]`
(activityService.js lines 225-227): a single identifier per call. -/
def activityDeleteParams (id : JSVal) : DeleteParams := ⟨[parseIntJS id]⟩

/-- `teacherService.delete` sends `RecordIds: [teacherId]`
(teacherService.js lines 163-165): a single raw identifier per call. -/
def teacherDeleteParams (id : JSVal) : DeleteParams := ⟨[id]⟩

/-- The toasts `ActivityService.create`/`update` emit for one failed record:
one per entry of `record.errors` (formatted `fieldLabel: message`, emitted
whenever the errors array is present) followed by one for a truthy
`record.message` (activityService.js lines 129-134). -/
def failedRecordToasts (r : RecordResult) : List Toast :=
  (match r.errors with
   | some errs => errs.map fun e => Toast.error (e.fieldLabel ++ ": " ++ e.message)
   | none => []) ++
  (if msgTruthy r.message then [Toast.error (r.message.getD "")] else [])

/-- `ActivityService.create` response handling (activityService.js
lines 115-149): failure envelope toasts the transport message and returns
`null`; with results, any failed record makes the call toast each failed
record's reasons and return `null`; otherwise the first succeeded record's
`data` is returned after one success toast; empty or absent results fall
through to `return null`. A thrown transport error is caught, toasts a
generic message and returns `null`. -/
def activityCreate (resp : Except String WriteResponse) : OpResult (Option Obj) :=
  match resp with
  | .error _ => ⟨.ret none, [.error "Failed to create activity"]⟩
  | .ok r =>
    if !r.success then ⟨.ret none, [.error r.message]⟩
    else
      match r.results with
      | none => ⟨.ret none, []⟩
      | some results =>
        let failed := results.filter fun x => !x.success
        if failed.length > 0 then
          ⟨.ret none, failed.flatMap failedRecordToasts⟩
        else
          match results.filter (·.success) with
          | s :: _ => ⟨.ret s.data, [.success "Activity created successfully"]⟩
          | [] => ⟨.ret none, []⟩

/-- `ActivityService.update` response handling (activityService.js
lines 178-212): identical to create except for the toast texts. -/
def activityUpdate (resp : Except String WriteResponse) : OpResult (Option Obj) :=
  match resp with
  | .error _ => ⟨.ret none, [.error "Failed to update activity"]⟩
  | .ok r =>
    if !r.success then ⟨.ret none, [.error r.message]⟩
    else
      match r.results with
      | none => ⟨.ret none, []⟩
      | some results =>
        let failed := results.filter fun x => !x.success
        if failed.length > 0 then
          ⟨.ret none, failed.flatMap failedRecordToasts⟩
        else
          match results.filter (·.success) with
          | s :: _ => ⟨.ret s.data, [.success "Activity updated successfully"]⟩
          | [] => ⟨.ret none, []⟩

/-- `ActivityService.delete` response handling (activityService.js
lines 229-260): failure envelope toasts and returns `false`; with results,
any failed record toasts each truthy failure message and returns `false`;
at least one success returns `true` after a success toast; empty results
fall through to `return false`. -/
def activityDelete (resp : Except String WriteResponse) : OpResult Bool :=
  match resp with
  | .error _ => ⟨.ret false, [.error "Failed to delete activity"]⟩
  | .ok r =>
    if !r.success then ⟨.ret false, [.error r.message]⟩
    else
      match r.results with
      | none => ⟨.ret false, []⟩
      | some results =>
        let failed := results.filter fun x => !x.success
        if failed.length > 0 then
          ⟨.ret false,
           failed.flatMap fun x =>
             if msgTruthy x.message then [Toast.error (x.message.getD "")] else []⟩
        else if decide (0 < (results.filter (·.success)).length) then
          ⟨.ret true, [.success "Activity deleted successfully"]⟩
        else ⟨.ret false, []⟩

/-- `teacherService.create` response handling (teacherService.js
lines 83-106): failure envelope throws `response.message` (rethrown by the
catch); with results, `failed.forEach` throws the first truthy
`record.message` — a failed record without one is only logged — and
otherwise `successful[0]?.data` is returned (undefined when no record
succeeded); absent results fall through and return undefined. No toasts. -/
def teacherCreate (resp : Except String WriteResponse) : OpResult (Option Obj) :=
  match resp with
  | .error e => ⟨.thrown e, []⟩
  | .ok r =>
    if !r.success then ⟨.thrown r.message, []⟩
    else
      match r.results with
      | none => ⟨.ret none, []⟩
      | some results =>
        match (results.filter fun x => !x.success).find? fun x => msgTruthy x.message with
        | some f => ⟨.thrown (f.message.getD ""), []⟩
        | none => ⟨.ret ((results.filter (·.success)).head?.bind (·.data)), []⟩

/-- `teacherService.update` response handling (teacherService.js
lines 129-152): identical to `teacherService.create`. -/
def teacherUpdate (resp : Except String WriteResponse) : OpResult (Option Obj) :=
  match resp with
  | .error e => ⟨.thrown e, []⟩
  | .ok r =>
    if !r.success then ⟨.thrown r.message, []⟩
    else
      match r.results with
      | none => ⟨.ret none, []⟩
      | some results =>
        match (results.filter fun x => !x.success).find? fun x => msgTruthy x.message with
        | some f => ⟨.thrown (f.message.getD ""), []⟩
        | none => ⟨.ret ((results.filter (·.success)).head?.bind (·.data)), []⟩

/-- `teacherService.delete` response handling (teacherService.js
lines 167-190): failure envelope throws; with results, the first truthy
failure message is thrown, otherwise `successful.length > 0` is returned —
even when failed records are present; absent results fall through and
return undefined. No toasts. -/
def teacherDelete (resp : Except String WriteResponse) : OpResult (Option Bool) :=
  match resp with
  | .error e => ⟨.thrown e, []⟩
  | .ok r =>
    if !r.success then ⟨.thrown r.message, []⟩
    else
      match r.results with
      | none => ⟨.ret none, []⟩
      | some results =>
        match (results.filter fun x => !x.success).find? fun x => msgTruthy x.message with
        | some f => ⟨.thrown (f.message.getD ""), []⟩
        | none => ⟨.ret (some (decide (0 < (results.filter (·.success)).length))), []⟩

/-! ## Theorems -/

/-- Claim C10: every `getAll` call takes no arguments and always sends the
same fixed request descriptor — a hard-coded field projection, a hard-coded
ordering (`ModifiedOn` descending for activities, `name_c` ascending for
teachers), and fixed paging of limit 100 with offset 0. The params are
constants of the embedding, so no caller can vary fields, ordering, paging,
or obtain more than 100 rows in one call. -/
theorem c10_getAll_fixed_request :
    activityGetAllParams =
      { fields := [⟨"Name"⟩, ⟨"Tags"⟩, ⟨"subject_c"⟩, ⟨"description_c"⟩,
                   ⟨"status_c"⟩, ⟨"priority_c"⟩, ⟨"due_date_c"⟩,
                   ⟨"CreatedOn"⟩, ⟨"ModifiedOn"⟩],
        orderBy := [⟨"ModifiedOn", "DESC"⟩],
        pagingInfo := ⟨100, 0⟩ } ∧
    teacherGetAllParams =
      { fields := [⟨"Id"⟩, ⟨"name_c"⟩, ⟨"email_c"⟩, ⟨"department_c"⟩],
        orderBy := [⟨"name_c", "ASC"⟩],
        pagingInfo := ⟨100, 0⟩ } :=
  ⟨rfl, rfl⟩

/-- Claim C4: every `getAll` call whose transport envelope reports success
with no rows — `data` absent (covering `null`/absent) or an empty list —
returns the empty sequence, never a null or absent value (the result type
is a list, and at these inputs it is `[]`). -/
theorem c4_getAll_empty_data (r : FetchResponse) (hs : r.success = true)
    (hd : r.data = none ∨ r.data = some []) :
    (activityGetAll (.ok r)).result = .ret [] ∧
    (teacherGetAll (.ok r)).result = .ret [] := by
  rcases hd with h | h <;> simp [activityGetAll, teacherGetAll, hs, h]

theorem c4_getAll_empty_data_witness :
    (FetchResponse.mk true "" none).success = true ∧
    (activityGetAll (.ok (FetchResponse.mk true "" none))).result = .ret [] ∧
    (teacherGetAll (.ok (FetchResponse.mk true "" none))).result = .ret [] :=
  ⟨rfl, c4_getAll_empty_data (FetchResponse.mk true "" none) rfl (Or.inl rfl)⟩

/-- Claim C6: every `getById` call whose transport envelope reports success
with no matching row returns the not-found value (`null`/absent, modelled
`none`) rather than a fatal failure, and emits no toast notification. -/
theorem c6_getById_not_found (id : JSVal) (r : GetByIdResponse)
    (hs : r.success = true) (hd : r.data = none) :
    (activityGetById id (.ok r)).result = .ret none ∧
    (activityGetById id (.ok r)).toasts = [] ∧
    (teacherGetById id (.ok r)).result = .ret none ∧
    (teacherGetById id (.ok r)).toasts = [] := by
  simp [activityGetById, teacherGetById, hs, hd]

theorem c6_getById_not_found_witness :
    (GetByIdResponse.mk true "" none).success = true ∧
    (activityGetById (.num 7) (.ok (GetByIdResponse.mk true "" none))).result
      = .ret none ∧
    (teacherGetById (.num 7) (.ok (GetByIdResponse.mk true "" none))).result
      = .ret none :=
  ⟨rfl,
   (c6_getById_not_found (.num 7) (GetByIdResponse.mk true "" none) rfl rfl).1,
   (c6_getById_not_found (.num 7) (GetByIdResponse.mk true "" none) rfl rfl).2.2.1⟩

/-- Claim C9: every `teacherService` create, update or delete call whose
transport envelope succeeds but carries no `results` field falls through
without a return value, i.e. returns undefined (modelled `.ret none`):
delete returns neither `true` nor `false`, and create/update return no
record. -/
theorem c9_teacher_missing_results (r : WriteResponse)
    (hs : r.success = true) (hr : r.results = none) :
    teacherCreate (.ok r) = ⟨.ret none, []⟩ ∧
    teacherUpdate (.ok r) = ⟨.ret none, []⟩ ∧
    teacherDelete (.ok r) = ⟨.ret none, []⟩ := by
  obtain ⟨s, m, res⟩ := r
  cases hs
  cases hr
  exact ⟨rfl, rfl, rfl⟩

theorem c9_teacher_missing_results_witness :
    (WriteResponse.mk true "" none).success = true ∧
    (WriteResponse.mk true "" none).results = none ∧
    teacherDelete (.ok (WriteResponse.mk true "" none)) = ⟨.ret none, []⟩ :=
  ⟨rfl, rfl, (c9_teacher_missing_results (WriteResponse.mk true "" none) rfl rfl).2.2⟩

/-- Claim C1 counterexample: `teacherService.getAll` propagates a transport
exception to the caller (the catch block rethrows), and on a non-success
envelope it emits no notification at all — refuting, at these concrete
inputs, that every `getAll` call surfaces the transport message as a
notification, returns the default failure value, and never throws. -/
theorem c1_counterexample :
    (teacherGetAll (.error "Network Error")).result = .thrown "Network Error" ∧
    (teacherGetAll (.ok (FetchResponse.mk false "fetch failed" none))).toasts = [] :=
  ⟨rfl, rfl⟩

/-- Claim C1 (amended): `ActivityService.getAll` behaves as the claim says —
a non-success envelope returns `[]` (the service's default failure value)
after exactly one notification carrying the transport message, and a thrown
transport error is swallowed into `[]` plus one generic notification, so
the call never throws. `teacherService.getAll`, however, never inspects the
success flag: a non-success envelope without data returns `[]` with no
notification, and a transport exception is rethrown to the caller. -/
theorem c1_getAll_failure_behavior (r : FetchResponse) (e : String)
    (hs : r.success = false) :
    activityGetAll (.ok r) = ⟨.ret [], [.error r.message]⟩ ∧
    activityGetAll (.error e) = ⟨.ret [], [.error "Failed to load activities"]⟩ ∧
    (r.data = none → teacherGetAll (.ok r) = ⟨.ret [], []⟩) ∧
    teacherGetAll (.error e) = ⟨.thrown e, []⟩ := by
  refine ⟨?_, rfl, ?_, rfl⟩
  · simp [activityGetAll, hs]
  · intro hd
    simp [teacherGetAll, hd]

theorem c1_getAll_failure_behavior_witness :
    (FetchResponse.mk false "boom" none).success = false ∧
    activityGetAll (.ok (FetchResponse.mk false "boom" none))
      = ⟨.ret [], [.error "boom"]⟩ ∧
    teacherGetAll (.ok (FetchResponse.mk false "boom" none)) = ⟨.ret [], []⟩ :=
  ⟨rfl,
   (c1_getAll_failure_behavior (FetchResponse.mk false "boom" none) "x" rfl).1,
   (c1_getAll_failure_behavior (FetchResponse.mk false "boom" none) "x" rfl).2.2.1 rfl⟩

/-- Claim C8 counterexample: a `getById` call with an identifier that is
not a positive integral value (the string "abc") still contacts the
transport, and does so with the raw, uncoerced identifier — refuting that
invalid identifiers are rejected synchronously before any network call and
that the identifier is coerced or validated to a positive integer first. -/
theorem c8_counterexample :
    (activityGetById (.str "abc") (.ok (GetByIdResponse.mk true "" none))).request
      = some ⟨"activity_c", .str "abc", activityGetByIdFields⟩ ∧
    (teacherGetById (.str "abc") (.ok (GetByIdResponse.mk true "" none))).request
      = some ⟨"teacher_c", .str "abc", teacherGetByIdFields⟩ :=
  ⟨rfl, rfl⟩

/-- Claim C8 (amended): `getById` performs no validation or coercion of the
identifier at the call boundary: for every identifier — valid or not — and
every transport behavior, the transport is contacted exactly once with the
identifier passed through unchanged. -/
theorem c8_getById_no_validation (id : JSVal) (resp : Except String GetByIdResponse) :
    (activityGetById id resp).request = some (activityGetByIdRequest id) ∧
    (activityGetByIdRequest id).id = id ∧
    (teacherGetById id resp).request = some (teacherGetByIdRequest id) ∧
    (teacherGetByIdRequest id).id = id :=
  ⟨rfl, rfl, rfl, rfl⟩

/-- Claim C5: for every input payload, the records create and update send
carry only the resource's whitelisted writeable fields (plus `Id` on
update): any binding present in the outgoing record has a whitelisted key,
so a payload field outside the whitelist never appears in it. The builders
are total functions, so the extra fields are dropped without any error. -/
theorem c5_write_whitelist (p : Obj) (id : JSVal) (k : String) (v : JSVal) :
    ((k, v) ∈ activityFormattedData p → k ∈ activityWriteFields) ∧
    ((k, v) ∈ activityUpdateFormattedData id p → k ∈ "Id" :: activityWriteFields) ∧
    ((k, v) ∈ teacherFilteredData p → k ∈ teacherWriteFields) ∧
    ((k, v) ∈ teacherUpdateFilteredData id p → k ∈ "Id" :: teacherWriteFields) := by
  refine ⟨?_, ?_, ?_, ?_⟩ <;> intro h <;>
    simp only [activityFormattedData, activityUpdateFormattedData,
      teacherFilteredData, teacherUpdateFilteredData, activityWriteFields,
      teacherWriteFields, List.mem_cons, List.not_mem_nil, or_false,
      Prod.mk.injEq] at h ⊢ <;>
    tauto

theorem c5_write_whitelist_witness :
    ("Name", JSVal.jsUndefined) ∈ activityFormattedData [] ∧
    "Name" ∈ activityWriteFields :=
  ⟨by decide, (c5_write_whitelist [] JSVal.jsUndefined "Name" JSVal.jsUndefined).1 (by decide)⟩

/-- Claim C2 counterexample: a `teacherService.update` call whose envelope
succeeds with exactly one succeeded record and zero failed records returns
that record's data but emits zero notifications — refuting, at this
concrete input, that every such create/update call emits exactly one
success notification. -/
theorem c2_counterexample :
    teacherUpdate (.ok (WriteResponse.mk true ""
        (some [RecordResult.mk true (some [("Id", JSVal.num 7)]) none none])))
      = ⟨.ret (some [("Id", JSVal.num 7)]), []⟩ :=
  rfl

/-- Claim C2 (amended): for `ActivityService` create and update with a
successful envelope, the claim holds as stated: the results are partitioned
into succeeded and failed; with at least one failed record the call returns
the failure value `null` after one notification per field-level reason
(formatted `fieldLabel: message`) and one per truthy record-level message;
with zero failed and at least one succeeded the first succeeded record's
data is returned after exactly one success notification; empty or absent
results return the fatal-failure default `null`. `teacherService` create
and update, however, emit no notifications: a failed record with a truthy
record-level message makes the call throw that message, and otherwise the
first succeeded record's data is returned (undefined when results are
empty or none succeeded). -/
theorem c2_write_partition :
    (∀ m results, 0 < (results.filter fun x => !x.success).length →
        activityCreate (.ok ⟨true, m, some results⟩)
          = ⟨.ret none, (results.filter fun x => !x.success).flatMap failedRecordToasts⟩ ∧
        activityUpdate (.ok ⟨true, m, some results⟩)
          = ⟨.ret none, (results.filter fun x => !x.success).flatMap failedRecordToasts⟩) ∧
    (∀ m results s rest, (results.filter fun x => !x.success) = [] →
        results.filter (·.success) = s :: rest →
        activityCreate (.ok ⟨true, m, some results⟩)
          = ⟨.ret s.data, [.success "Activity created successfully"]⟩ ∧
        activityUpdate (.ok ⟨true, m, some results⟩)
          = ⟨.ret s.data, [.success "Activity updated successfully"]⟩) ∧
    (∀ m, activityCreate (.ok ⟨true, m, some []⟩) = ⟨.ret none, []⟩ ∧
          activityUpdate (.ok ⟨true, m, some []⟩) = ⟨.ret none, []⟩ ∧
          activityCreate (.ok ⟨true, m, none⟩) = ⟨.ret none, []⟩ ∧
          activityUpdate (.ok ⟨true, m, none⟩) = ⟨.ret none, []⟩) ∧
    (∀ m results, (teacherCreate (.ok ⟨true, m, some results⟩)).toasts = [] ∧
                  (teacherUpdate (.ok ⟨true, m, some results⟩)).toasts = []) ∧
    (∀ m results f,
        (results.filter fun x => !x.success).find? (fun x => msgTruthy x.message)
          = some f →
        teacherCreate (.ok ⟨true, m, some results⟩) = ⟨.thrown (f.message.getD ""), []⟩ ∧
        teacherUpdate (.ok ⟨true, m, some results⟩) = ⟨.thrown (f.message.getD ""), []⟩) ∧
    (∀ m results,
        (results.filter fun x => !x.success).find? (fun x => msgTruthy x.message)
          = none →
        teacherCreate (.ok ⟨true, m, some results⟩)
          = ⟨.ret ((results.filter (·.success)).head?.bind (·.data)), []⟩ ∧
        teacherUpdate (.ok ⟨true, m, some results⟩)
          = ⟨.ret ((results.filter (·.success)).head?.bind (·.data)), []⟩) := by
  refine ⟨?_, ?_, ?_, ?_, ?_, ?_⟩
  · intro m results h
    constructor <;> simp [activityCreate, activityUpdate, h]
  · intro m results s rest h1 h2
    constructor <;> simp [activityCreate, activityUpdate, h1, h2]
  · intro m
    exact ⟨rfl, rfl, rfl, rfl⟩
  · intro m results
    cases hf : (results.filter fun x => !x.success).find? fun x => msgTruthy x.message <;>
      constructor <;> simp [teacherCreate, teacherUpdate, hf]
  · intro m results f hf
    constructor <;> simp [teacherCreate, teacherUpdate, hf]
  · intro m results hf
    constructor <;> simp [teacherCreate, teacherUpdate, hf]

theorem c2_write_partition_witness :
    0 < ([RecordResult.mk false none (some "bad") none].filter fun x => !x.success).length ∧
    activityCreate (.ok (WriteResponse.mk true ""
        (some [RecordResult.mk false none (some "bad") none])))
      = ⟨.ret none, [.error "bad"]⟩ := by
  refine ⟨by decide, ?_⟩
  have h := (c2_write_partition.1 ""
    [RecordResult.mk false none (some "bad") none] (by decide)).1
  simpa using h

/-- Claim C3 counterexample: a `teacherService.create` call whose results
contain one succeeded record and one failed record that carries field-level
errors but no record-level message returns the succeeded record's data with
no notification and no thrown message — a per-record failure resulting in a
silent success, at exactly the situation the claim singles out. -/
theorem c3_counterexample :
    teacherCreate (.ok (WriteResponse.mk true ""
        (some [RecordResult.mk true (some [("Id", JSVal.num 1)]) none none,
               RecordResult.mk false none none
                 (some [RecordError.mk "due_date_c" "required"])])))
      = ⟨.ret (some [("Id", JSVal.num 1)]), []⟩ :=
  rfl

/-- Claim C3 (amended): when some record of the results fails, the
`ActivityService` calls do return a failure value (`null` / `false`).
`ActivityService` create and update surface every field-level reason and
every truthy record-level message of each failed record as a notification;
`ActivityService` delete surfaces only truthy record-level messages — every
toast it emits is the truthy message of some failed record, so field-level
errors are dropped by delete. The `teacherService` calls throw some truthy
record-level failure message whenever a failed record carries one, ignoring
field-level errors entirely, so (per the counterexample) a failed record
whose only reasons are field-level is silently dropped there, and a teacher
call can even report overall success. -/
theorem c3_failed_record_surfacing (m : String) (results : List RecordResult)
    (r : RecordResult) (hr : r ∈ results) (hf : r.success = false) :
    (activityCreate (.ok ⟨true, m, some results⟩)).result = .ret none ∧
    (activityUpdate (.ok ⟨true, m, some results⟩)).result = .ret none ∧
    (activityDelete (.ok ⟨true, m, some results⟩)).result = .ret false ∧
    (∀ errs e, r.errors = some errs → e ∈ errs →
        Toast.error (e.fieldLabel ++ ": " ++ e.message)
          ∈ (activityCreate (.ok ⟨true, m, some results⟩)).toasts ∧
        Toast.error (e.fieldLabel ++ ": " ++ e.message)
          ∈ (activityUpdate (.ok ⟨true, m, some results⟩)).toasts) ∧
    (msgTruthy r.message = true →
        Toast.error (r.message.getD "")
          ∈ (activityCreate (.ok ⟨true, m, some results⟩)).toasts ∧
        Toast.error (r.message.getD "")
          ∈ (activityUpdate (.ok ⟨true, m, some results⟩)).toasts ∧
        Toast.error (r.message.getD "")
          ∈ (activityDelete (.ok ⟨true, m, some results⟩)).toasts) ∧
    (∀ t, t ∈ (activityDelete (.ok ⟨true, m, some results⟩)).toasts →
        ∃ x : RecordResult, x ∈ results ∧ x.success = false ∧
          msgTruthy x.message = true ∧ t = Toast.error (x.message.getD "")) ∧
    (msgTruthy r.message = true →
        ∃ f : RecordResult, msgTruthy f.message = true ∧
          teacherCreate (.ok ⟨true, m, some results⟩)
            = ⟨.thrown (f.message.getD ""), []⟩ ∧
          teacherUpdate (.ok ⟨true, m, some results⟩)
            = ⟨.thrown (f.message.getD ""), []⟩ ∧
          teacherDelete (.ok ⟨true, m, some results⟩)
            = ⟨.thrown (f.message.getD ""), []⟩) := by
  have hrf : r ∈ results.filter fun x => !x.success :=
    List.mem_filter.2 ⟨hr, by simp [hf]⟩
  have hpos : 0 < (results.filter fun x => !x.success).length :=
    List.length_pos.2 (by intro h0; rw [h0] at hrf; simp at hrf)
  have htoastsC : (activityCreate (.ok ⟨true, m, some results⟩)).toasts
      = (results.filter fun x => !x.success).flatMap failedRecordToasts := by
    simp [activityCreate, hpos]
  have htoastsU : (activityUpdate (.ok ⟨true, m, some results⟩)).toasts
      = (results.filter fun x => !x.success).flatMap failedRecordToasts := by
    simp [activityUpdate, hpos]
  have htoastsD : (activityDelete (.ok ⟨true, m, some results⟩)).toasts
      = (results.filter fun x => !x.success).flatMap fun x =>
          if msgTruthy x.message then [Toast.error (x.message.getD "")] else [] := by
    simp [activityDelete, hpos]
  refine ⟨?_, ?_, ?_, ?_, ?_, ?_, ?_⟩
  · simp [activityCreate, hpos]
  · simp [activityUpdate, hpos]
  · simp [activityDelete, hpos]
  · intro errs e he1 he2
    have hmem : Toast.error (e.fieldLabel ++ ": " ++ e.message)
        ∈ errs.map fun x => Toast.error (x.fieldLabel ++ ": " ++ x.message) :=
      List.mem_map.2 ⟨e, he2, rfl⟩
    have hin : Toast.error (e.fieldLabel ++ ": " ++ e.message)
        ∈ failedRecordToasts r := by
      simp only [failedRecordToasts, he1, List.mem_append]
      exact Or.inl hmem
    exact ⟨htoastsC ▸ List.mem_flatMap.2 ⟨r, hrf, hin⟩,
           htoastsU ▸ List.mem_flatMap.2 ⟨r, hrf, hin⟩⟩
  · intro hmsg
    have hin : Toast.error (r.message.getD "") ∈ failedRecordToasts r := by
      simp only [failedRecordToasts, hmsg, if_true, List.mem_append]
      exact Or.inr (List.mem_singleton.2 rfl)
    have hinD : Toast.error (r.message.getD "")
        ∈ (if msgTruthy r.message then [Toast.error (r.message.getD "")] else []) := by
      simp [hmsg]
    exact ⟨htoastsC ▸ List.mem_flatMap.2 ⟨r, hrf, hin⟩,
           htoastsU ▸ List.mem_flatMap.2 ⟨r, hrf, hin⟩,
           htoastsD ▸ List.mem_flatMap.2 ⟨r, hrf, hinD⟩⟩
  · intro t ht
    rw [htoastsD] at ht
    obtain ⟨x, hx, htx⟩ := List.mem_flatMap.1 ht
    have hxr := List.mem_filter.1 hx
    by_cases hmx : msgTruthy x.message = true
    · refine ⟨x, hxr.1, by simpa using hxr.2, hmx, ?_⟩
      simp only [hmx, if_true, List.mem_singleton] at htx
      exact htx
    · simp only [Bool.not_eq_true] at hmx
      simp [hmx] at htx
  · intro hmsg
    have hsome : ((results.filter fun x => !x.success).find?
        fun x => msgTruthy x.message).isSome :=
      List.find?_isSome.2 ⟨r, hrf, hmsg⟩
    obtain ⟨f, hfind⟩ := Option.isSome_iff_exists.1 hsome
    refine ⟨f, by simpa using List.find?_some hfind, ?_, ?_, ?_⟩ <;>
      simp [teacherCreate, teacherUpdate, teacherDelete, hfind]

theorem c3_failed_record_surfacing_witness :
    RecordResult.mk false none (some "nope") none
      ∈ [RecordResult.mk false none (some "nope") none] ∧
    (activityUpdate (.ok (WriteResponse.mk true ""
        (some [RecordResult.mk false none (some "nope") none])))).result
      = .ret none :=
  ⟨by decide,
   (c3_failed_record_surfacing ""
      [RecordResult.mk false none (some "nope") none]
      (RecordResult.mk false none (some "nope") none)
      (by decide) rfl).2.1⟩

/-- Claim C7 counterexample: a `teacherService.delete` call whose results
contain one succeeded and one failed record (the failed record carrying no
message) returns `true` with no notification — refuting, at this concrete
input, that delete returns `Success(true)` exactly when every per-record
result succeeded and that any per-record failure yields a failure outcome.
(The delete functions also accept a single identifier, not a sequence.) -/
theorem c7_counterexample :
    teacherDelete (.ok (WriteResponse.mk true ""
        (some [RecordResult.mk true none none none,
               RecordResult.mk false none none none])))
      = ⟨.ret (some true), []⟩ :=
  rfl

/-- Claim C7 (amended): each delete call accepts exactly one identifier,
which the client wraps into a one-element batch (`parseInt`ed for
activities, raw for teachers). On transport failure `ActivityService`
returns `false` after one notification and `teacherService` throws. With
per-record results, `ActivityService` returns `true` (after one success
notification) exactly when no record failed and at least one succeeded,
and otherwise returns `false`, emitting one notification per truthy
failure message; `teacherService` throws the first truthy failure message
and, when no failed record carries one, returns whether any record
succeeded — even if some failed. -/
theorem c7_delete_behavior (id : JSVal) (e m : String) (r : WriteResponse)
    (results : List RecordResult) :
    activityDeleteParams id = ⟨[parseIntJS id]⟩ ∧
    teacherDeleteParams id = ⟨[id]⟩ ∧
    activityDelete (.error e) = ⟨.ret false, [.error "Failed to delete activity"]⟩ ∧
    teacherDelete (.error e) = ⟨.thrown e, []⟩ ∧
    (r.success = false →
        activityDelete (.ok r) = ⟨.ret false, [.error r.message]⟩ ∧
        teacherDelete (.ok r) = ⟨.thrown r.message, []⟩) ∧
    ((results.filter fun x => !x.success) = [] →
        0 < (results.filter (·.success)).length →
        activityDelete (.ok ⟨true, m, some results⟩)
          = ⟨.ret true, [.success "Activity deleted successfully"]⟩) ∧
    (0 < (results.filter fun x => !x.success).length →
        activityDelete (.ok ⟨true, m, some results⟩)
          = ⟨.ret false,
             (results.filter fun x => !x.success).flatMap fun x =>
               if msgTruthy x.message then [Toast.error (x.message.getD "")] else []⟩) ∧
    (∀ f, (results.filter fun x => !x.success).find? (fun x => msgTruthy x.message)
          = some f →
        teacherDelete (.ok ⟨true, m, some results⟩)
          = ⟨.thrown (f.message.getD ""), []⟩) ∧
    ((results.filter fun x => !x.success).find? (fun x => msgTruthy x.message)
          = none →
        teacherDelete (.ok ⟨true, m, some results⟩)
          = ⟨.ret (some (decide (0 < (results.filter (·.success)).length))), []⟩) := by
  refine ⟨rfl, rfl, rfl, rfl, ?_, ?_, ?_, ?_, ?_⟩
  · intro hs
    constructor <;> simp [activityDelete, teacherDelete, hs]
  · intro h1 h2
    simp [activityDelete, h1, h2]
  · intro h
    simp [activityDelete, h]
  · intro f hf
    simp [teacherDelete, hf]
  · intro hf
    simp [teacherDelete, hf]

theorem c7_delete_behavior_witness :
    (WriteResponse.mk false "gone" none).success = false ∧
    activityDelete (.ok (WriteResponse.mk false "gone" none))
      = ⟨.ret false, [.error "gone"]⟩ ∧
    teacherDelete (.ok (WriteResponse.mk false "gone" none))
      = ⟨.thrown "gone", []⟩ :=
  ⟨rfl,
   (c7_delete_behavior (.num 1) "" "" (WriteResponse.mk false "gone" none)
      []).2.2.2.2.1 rfl⟩

end StudyFlow
